import Mathlib

/-!
Verification of the pick-and-place motion sequencer in
`src/scripts/pick_and_place.py` (class `PickAndPlace` and the task loop of
`main`).  The Python script is embedded shallowly: geometry is over `ℚ`, the
external IK service and the end-effector pose reading are an explicit
environment, and every externally observable action (service calls, actuator
commands, log lines, prints, sleeps) is an `Event`; each method of the class
becomes a function returning the list of events it emits, in order.
-/

namespace PickAndPlaceModel

/-- `geometry_msgs/Point`: position in meters (`double` in ROS, `ℚ` here). -/
structure Point where
  x : ℚ
  y : ℚ
  z : ℚ
deriving DecidableEq, Repr

/-- `geometry_msgs/Quaternion`: orientation. -/
structure Quat where
  x : ℚ
  y : ℚ
  z : ℚ
  w : ℚ
deriving DecidableEq, Repr

/-- `geometry_msgs/Pose`: position plus orientation. -/
structure Pose where
  position : Point
  orientation : Quat
deriving DecidableEq, Repr

/-- The joint dictionary built by `ik_request`
(`dict(zip(resp.joints[0].name, resp.joints[0].position))`), as an
association list joint-name to angle. -/
def JointConfig : Type := List (String × ℚ)

instance : DecidableEq JointConfig := by
  unfold JointConfig
  infer_instance

instance : Inhabited JointConfig := ⟨([] : List (String × ℚ))⟩

instance : Repr JointConfig := inferInstanceAs (Repr (List (String × ℚ)))

/-- Result-type codes of `baxter_core_msgs/SolvePositionIK`. -/
def RESULT_INVALID : Nat := 0

def SEED_USER : Nat := 1

def SEED_CURRENT : Nat := 2

def SEED_NS_MAP : Nat := 3

/-- The possible outcomes of one call to the IK service proxy
`self._iksvc(ikreq)`: either a response message (first result-type code,
joint name array, joint position array of `resp.joints[0]`), or the call
itself raising `rospy.ServiceException` / `rospy.ROSException`. -/
inductive IKResponse where
  | resp (resultCode : Nat) (jointNames : List String) (jointPositions : List ℚ)
  | serviceError (msg : String)
deriving DecidableEq, Repr

/-- Externally observable actions of the script, in program order. -/
inductive Event where
  | gripperOpenCmd
  | gripperCloseCmd
  | sleep (secs : ℚ)
  | solveRequest (pose : Pose)
  | moveTo (joints : JointConfig)
  | readEndpointPose
  | logErr (msg : String)
  | printMsg (msg : String)
deriving DecidableEq, Repr

/-- The environment the sequencer runs against: the external IK solver's
response to each requested pose, and the live end-effector pose returned by
`self._limb.endpoint_pose()`. -/
structure Env where
  solver : Pose → IKResponse
  endpointPose : Pose

/-- The fields of `PickAndPlace` that the modelled methods read:
`_limb_name`, `_hover_distance`, `_verbose` (set in `__init__`,
lines 64-67). -/
structure PnP where
  limb_name : String
  hover_distance : ℚ
  verbose : Bool

/-- Python truthiness of the value flowing into
`_guarded_move_to_joint_position` / `move_to_start`: `False` (here `none`)
and the empty dict are falsy, a non-empty dict is truthy. -/
def pyTruthy : Option JointConfig → Bool
  | none => false
  | some l => !l.isEmpty

/-- The `seed_str` lookup of `ik_request` (lines 103-107). -/
def seedStr (code : Nat) : String :=
  if code = SEED_USER then "User Provided Seed"
  else if code = SEED_CURRENT then "Current Joint Angles"
  else if code = SEED_NS_MAP then "Nullspace Setpoints"
  else "None"

/-- Stand-in for Python's textual formatting of the joint dictionary in
`print("IK Joint Solution:\n{0}".format(limb_joints))`; only the fact that
a print happens matters, not its exact text. -/
def formatJoints (l : JointConfig) : String :=
  String.intercalate ", " (l.map (fun p => p.1 ++ ": " ++ toString p.2))

/-- `PickAndPlace.ik_request` (lines 89-119): issue the service request for
`pose`; on a service exception log and return `False` (`none`); on
`RESULT_INVALID` log and return `False`; otherwise optionally print the seed
kind and the solution and return the joint dictionary.  Returns the Python
return value paired with the emitted events. -/
def ik_request (verbose : Bool) (solver : Pose → IKResponse) (pose : Pose) :
    Option JointConfig × List Event :=
  match solver pose with
  | .serviceError e =>
      (none, [Event.solveRequest pose, Event.logErr ("Service call failed: " ++ e)])
  | .resp code names positions =>
      if code ≠ RESULT_INVALID then
        let limb_joints : JointConfig := names.zip positions
        (some limb_joints,
          [Event.solveRequest pose] ++
            (if verbose then
              [Event.printMsg
                 ("IK Solution SUCCESS - Valid Joint Solution Found from Seed Type: "
                   ++ seedStr code),
               Event.printMsg ("IK Joint Solution:\n" ++ formatJoints limb_joints),
               Event.printMsg "------------------"]
             else []))
      else
        (none, [Event.solveRequest pose,
                Event.logErr "INVALID POSE - No Valid Joint Solution Found."])

/-- Whether the solver's answer makes `ik_request` fail (return `False`):
either the service call raised, or the result type is `RESULT_INVALID`. -/
def ikFails : IKResponse → Bool
  | .serviceError _ => true
  | .resp code _ _ => code = RESULT_INVALID

/-- `PickAndPlace._guarded_move_to_joint_position` (lines 121-125): command
the limb only when `joint_angles` is truthy, otherwise log and stay put. -/
def guarded_move_to_joint_position (joint_angles : Option JointConfig) :
    List Event :=
  match joint_angles with
  | some l =>
      if l.isEmpty then
        [Event.logErr "No Joint Angles provided for move_to_joint_positions. Staying put."]
      else
        [Event.moveTo l]
  | none =>
      [Event.logErr "No Joint Angles provided for move_to_joint_positions. Staying put."]

/-- `PickAndPlace.gripper_open` (lines 127-129). -/
def gripper_open : List Event :=
  [Event.gripperOpenCmd, Event.sleep 1]

/-- `PickAndPlace.gripper_close` (lines 131-133). -/
def gripper_close : List Event :=
  [Event.gripperCloseCmd, Event.sleep 1]

/-- The pose transform performed by `_approach` and `goTo` (lines 136-138,
143-144): a deep copy of `pose` with `position.z` increased by the hover
distance.  The deep copy means the caller's pose is untouched; the model is
a pure function, matching that value semantics. -/
def hover (pose : Pose) (distance : ℚ) : Pose :=
  { pose with position := { pose.position with z := pose.position.z + distance } }

/-- `PickAndPlace._approach` (lines 135-140): solve for the hover pose and
do a guarded move with the result. -/
def _approach (pnp : PnP) (env : Env) (pose : Pose) : List Event :=
  let approach := hover pose pnp.hover_distance
  let r := ik_request pnp.verbose env.solver approach
  r.2 ++ guarded_move_to_joint_position r.1

/-- `PickAndPlace.goTo` (lines 142-146): identical body to `_approach`
(hover offset applied, then solve, then guarded move). -/
def goTo (pnp : PnP) (env : Env) (pose : Pose) : List Event :=
  let approach := hover pose pnp.hover_distance
  let r := ik_request pnp.verbose env.solver approach
  r.2 ++ guarded_move_to_joint_position r.1

/-- The pose assembled field by field in `_retract` (lines 151-158) from
the current end-effector pose. -/
def retract_ik_pose (pnp : PnP) (current_pose : Pose) : Pose :=
  { position := { x := current_pose.position.x
                  y := current_pose.position.y
                  z := current_pose.position.z + pnp.hover_distance }
    orientation := { x := current_pose.orientation.x
                     y := current_pose.orientation.y
                     z := current_pose.orientation.z
                     w := current_pose.orientation.w } }

/-- `PickAndPlace._retract` (lines 148-161): read the current end-effector
pose, solve for it lifted by the hover distance, guarded move. -/
def _retract (pnp : PnP) (env : Env) : List Event :=
  let current_pose := env.endpointPose
  let ik_pose := retract_ik_pose pnp current_pose
  let r := ik_request pnp.verbose env.solver ik_pose
  [Event.readEndpointPose] ++ r.2 ++ guarded_move_to_joint_position r.1

/-- `PickAndPlace._servo_to_pose` (lines 163-166): solve for the exact pose
(no hover offset), guarded move. -/
def _servo_to_pose (pnp : PnP) (env : Env) (pose : Pose) : List Event :=
  let r := ik_request pnp.verbose env.solver pose
  r.2 ++ guarded_move_to_joint_position r.1

/-- The sequencer phase the spec's state machine ends in. -/
inductive SequencerState where
  | Idle
  | Failed
deriving DecidableEq, Repr

/-- `PickAndPlace.pick` (lines 168-182): open gripper, approach, servo to
the pose, close gripper, retract, then visit each waypoint of `posePath` in
order.  The source has no failure-escalation path: control flows through
every phase unconditionally and returns to the caller, so in the state
machine reading the routine always ends `Idle`. -/
def pick (pnp : PnP) (env : Env) (pose : Pose) (posePath : List Pose) :
    List Event × SequencerState :=
  (gripper_open ++ _approach pnp env pose ++ _servo_to_pose pnp env pose ++
     gripper_close ++ _retract pnp env ++
     (posePath.map (fun p => Event.printMsg "Came here" :: goTo pnp env p)).flatten,
   SequencerState.Idle)

/-- `PickAndPlace.place` (lines 184-192): approach, servo to the pose, open
gripper, retract; it returns unconditionally, hence ends `Idle`. -/
def place (pnp : PnP) (env : Env) (pose : Pose) : List Event × SequencerState :=
  (_approach pnp env pose ++ _servo_to_pose pnp env pose ++ gripper_open ++
     _retract pnp env,
   SequencerState.Idle)

/-- Recognizer for IK service request events. -/
def isSolve : Event → Bool
  | .solveRequest _ => true
  | _ => false

/-- Recognizer for actuator motion command events. -/
def isMove : Event → Bool
  | .moveTo _ => true
  | _ => false

/-- `true` when the first solve-or-move event of the trace (if any) is a
solve: no motion command is ever issued before a solve request. -/
def movePrecededBySolve : List Event → Bool
  | [] => true
  | Event.moveTo _ :: _ => false
  | Event.solveRequest _ :: _ => true
  | _ :: rest => movePrecededBySolve rest

/-- The joint dictionary a response would yield on the success path of
`ik_request`. -/
def respJoints : IKResponse → JointConfig
  | .resp _ names positions => names.zip positions
  | .serviceError _ => []

/-- The per-phase ordering discipline: exactly one solve request, at most
one motion command, no motion when the solve failed, exactly one motion
when the solve succeeded with a non-empty joint dictionary, and any motion
comes after the solve. -/
def phaseSpec (tr : List Event) (r : IKResponse) : Prop :=
  tr.countP isSolve = 1 ∧
  tr.countP isMove ≤ 1 ∧
  (ikFails r = true → tr.countP isMove = 0) ∧
  (ikFails r = false → (respJoints r).isEmpty = false → tr.countP isMove = 1) ∧
  movePrecededBySolve tr = true

/-- A concrete pose used by closed witnesses and counterexamples. -/
def samplePose : Pose :=
  { position := { x := 7/10, y := 15/100, z := -129/1000 }
    orientation := { x := 0, y := 0, z := 0, w := 1 } }

/-- The calls the spec's end-to-end scenarios enumerate: gripper commands,
solve requests, motion commands and the end-effector pose read (sleeps,
prints and log lines are not external calls). -/
def isExternalCall : Event → Bool
  | .gripperOpenCmd => true
  | .gripperCloseCmd => true
  | .solveRequest _ => true
  | .moveTo _ => true
  | .readEndpointPose => true
  | _ => false

/-- The subsequence of external calls of a trace. -/
def externalCalls (tr : List Event) : List Event :=
  tr.filter isExternalCall

/-- A sequencer instance with unit hover distance, used by closed
witnesses and counterexamples. -/
def pnpX : PnP := { limb_name := "left", hover_distance := 1, verbose := false }

/-- Identity orientation for the concrete poses below. -/
def idQuat : Quat := { x := 0, y := 0, z := 0, w := 1 }

/-- Concrete target pose for closed scenarios. -/
def targetX : Pose := { position := { x := 1, y := 2, z := 3 }, orientation := idQuat }

/-- Concrete end-effector pose for closed scenarios. -/
def endpointX : Pose := { position := { x := 5, y := 5, z := 5 }, orientation := idQuat }

/-- An environment whose solver reports `RESULT_INVALID` exactly for the
hover pose above `targetX` and a one-joint solution everywhere else. -/
def envFailApproach : Env :=
  { solver := fun p =>
      if p = hover targetX 1 then IKResponse.resp RESULT_INVALID [] []
      else IKResponse.resp SEED_CURRENT ["left_s0"] [1]
    endpointPose := endpointX }

/-- An environment whose solver always succeeds with a one-joint solution. -/
def envOk : Env :=
  { solver := fun _ => IKResponse.resp SEED_CURRENT ["left_s0"] [1]
    endpointPose := endpointX }

/-- `PickAndPlace.__init__` (lines 64-78) assigns `_limb_name`,
`_hover_distance`, `_verbose`, `_limb`, `_gripper`, `_iksvc`, `_rs` and
`_init_state`; no `_joint_names` attribute is ever assigned anywhere in
the class, so the lookup `self._joint_names` in `move_to_start` finds
nothing. -/
def joint_names_attr : Option (List String) := none

/-- The Python exception the embedding distinguishes: attribute lookup on
a name the object does not have. -/
inductive PyError where
  | attributeError (name : String)
deriving DecidableEq, Repr

/-- `PickAndPlace.move_to_start` (lines 80-87): print, substitute an
all-zero configuration over `self._joint_names` when `start_angles` is
falsy (`None` or an empty dict), guarded move, gripper open, sleep, print.
Returns the events emitted together with `none` when the routine
completed, or `some err` for the exception that aborted it. -/
def move_to_start (pnp : PnP) (start_angles : Option JointConfig) :
    List Event × Option PyError :=
  let ev0 := [Event.printMsg ("Moving the " ++ pnp.limb_name ++ " arm to start pose...")]
  if pyTruthy start_angles then
    (ev0 ++ guarded_move_to_joint_position start_angles ++ gripper_open ++
       [Event.sleep 1, Event.printMsg "Running. Ctrl-c to quit"], none)
  else
    match joint_names_attr with
    | some names =>
        let zeros : JointConfig := names.zip (List.replicate 7 (0 : ℚ))
        (ev0 ++ guarded_move_to_joint_position (some zeros) ++ gripper_open ++
           [Event.sleep 1, Event.printMsg "Running. Ctrl-c to quit"], none)
    | none => (ev0, some (PyError.attributeError "_joint_names"))

/-- The per-object home-pose bookkeeping of `main` (lines 356-367): a list
of candidate poses (`block1_poses` / `block2_poses`) with a running index.
`main` reads `block_poses[idx]` and then advances
`idx = (idx + 1) % len(block_poses)` before the next read; `nextHome`
packages one such read-and-advance step. -/
structure Task where
  poses : List Pose
  idx : Nat

/-- Default pose for out-of-range indexing; never reached while the index
invariant `idx < len` holds. -/
def defaultPose : Pose :=
  { position := { x := 0, y := 0, z := 0 }
    orientation := { x := 0, y := 0, z := 0, w := 0 } }

/-- One cycle step of the task queue: return the pose at the current index
and advance the index by one modulo the sequence length. -/
def nextHome (t : Task) : Pose × Task :=
  (t.poses.getD t.idx defaultPose, { t with idx := (t.idx + 1) % t.poses.length })

/-- The task state after one `nextHome` call. -/
def advance (t : Task) : Task := (nextHome t).2

/-- The pose returned by the `(k+1)`-th `nextHome` call. -/
def homeAt (t : Task) (k : Nat) : Pose := (nextHome (advance^[k] t)).1

/-- A concrete two-pose task queue at index 0. -/
def taskX : Task := { poses := [targetX, endpointX], idx := 0 }

lemma solve_guard_phaseSpec (v : Bool) (s : Pose → IKResponse) (q : Pose) :
    phaseSpec
      ((ik_request v s q).2 ++ guarded_move_to_joint_position (ik_request v s q).1)
      (s q) := by
  rcases hs : s q with ⟨code, names, positions⟩ | e
  · by_cases hc : code = RESULT_INVALID
    · subst hc
      simp [phaseSpec, ik_request, hs, guarded_move_to_joint_position, ikFails,
        isSolve, isMove, movePrecededBySolve]
    · rcases hv : v with _ | _ <;>
        rcases hz : (names.zip positions).isEmpty with _ | _ <;>
          simp [phaseSpec, ik_request, hs, hc, hz, guarded_move_to_joint_position,
            ikFails, respJoints, isSolve, isMove, movePrecededBySolve]
  · simp [phaseSpec, ik_request, hs, guarded_move_to_joint_position, ikFails,
      isSolve, isMove, movePrecededBySolve]

lemma phaseSpec_cons_read (tr : List Event) (r : IKResponse)
    (h : phaseSpec tr r) : phaseSpec (Event.readEndpointPose :: tr) r := by
  obtain ⟨h1, h2, h3, h4, h5⟩ := h
  refine ⟨?_, ?_, fun hf => ?_, fun hf hne => ?_, ?_⟩
  · rw [List.countP_cons]
    simpa [isSolve] using h1
  · rw [List.countP_cons]
    simpa [isMove] using h2
  · rw [List.countP_cons]
    simpa [isMove] using h3 hf
  · rw [List.countP_cons]
    simpa [isMove] using h4 hf hne
  · simpa [movePrecededBySolve] using h5

end PickAndPlaceModel

namespace PickAndPlaceModel

/-- C6: `hover` (the copy-then-offset transform of `_approach`/`goTo`)
returns a pose whose `z` is the input's `z` plus the distance, leaves `x`,
`y` and the orientation unchanged, and is the identity at distance `0`.  It
is a pure function of the copied pose, so the input pose is never mutated
(the source takes a `copy.deepcopy` before touching `z`). -/
theorem C6_hover_spec (p : Pose) (d : ℚ) :
    (hover p d).position.z = p.position.z + d ∧
    (hover p d).position.x = p.position.x ∧
    (hover p d).position.y = p.position.y ∧
    (hover p d).orientation = p.orientation ∧
    hover p 0 = p := by
  obtain ⟨⟨x, y, z⟩, q⟩ := p
  simp [hover]

/-- C8: a guarded move invoked with a falsy joint configuration (`False`
from a failed solve, or an empty dictionary) emits exactly one log line and
nothing else: no motion command reaches the actuator, the call returns
normally, and no failure escalation of any kind happens. -/
theorem C8_empty_move_refused (ja : Option JointConfig)
    (h : pyTruthy ja = false) :
    guarded_move_to_joint_position ja =
        [Event.logErr "No Joint Angles provided for move_to_joint_positions. Staying put."] ∧
      (guarded_move_to_joint_position ja).countP isMove = 0 := by
  rcases ja with _ | l
  · simp [guarded_move_to_joint_position, isMove]
  · simp [pyTruthy] at h
    simp [guarded_move_to_joint_position, h, isMove]

/-- Closed witness for `C8_empty_move_refused` at `ja = none`. -/
theorem C8_empty_move_refused_witness :
    guarded_move_to_joint_position none =
        [Event.logErr "No Joint Angles provided for move_to_joint_positions. Staying put."] ∧
      (guarded_move_to_joint_position none).countP isMove = 0 :=
  C8_empty_move_refused none rfl

/-- C3 counterexample: the claim says a service-call failure is surfaced as
a value distinguishable from the no-solution result.  In the code both
paths `return False`: at a concrete pose, `ik_request` under a raising
service and `ik_request` under a `RESULT_INVALID` response return the very
same value (`False`, here `none`). -/
theorem C3_counterexample :
    (ik_request false (fun _ => IKResponse.serviceError "transport error") samplePose).1 =
        (ik_request false (fun _ => IKResponse.resp RESULT_INVALID [] []) samplePose).1 ∧
      (ik_request false (fun _ => IKResponse.serviceError "transport error") samplePose).1 =
        none := by
  constructor <;> rfl

/-- C3 amended: both failure kinds — a raising service call and an explicit
`RESULT_INVALID` response — are surfaced as the same return value `False`
(`none`); they differ only in the log line emitted, and jointly differ from
a success, which returns the zipped joint dictionary. -/
theorem C3_failures_conflated (v : Bool) (s : Pose → IKResponse) (p : Pose) :
    (∀ e, s p = IKResponse.serviceError e →
        (ik_request v s p).1 = none ∧
          Event.logErr ("Service call failed: " ++ e) ∈ (ik_request v s p).2) ∧
      (∀ names positions, s p = IKResponse.resp RESULT_INVALID names positions →
        (ik_request v s p).1 = none ∧
          Event.logErr "INVALID POSE - No Valid Joint Solution Found." ∈
            (ik_request v s p).2) ∧
      (∀ code names positions, code ≠ RESULT_INVALID →
        s p = IKResponse.resp code names positions →
        (ik_request v s p).1 = some (names.zip positions)) := by
  refine ⟨?_, ?_, ?_⟩
  · intro e he
    simp [ik_request, he]
  · intro names positions hr
    simp [ik_request, hr]
  · intro code names positions hc hr
    simp [ik_request, hr, hc]

/-- Closed witness for `C3_failures_conflated`, discharging each branch at
concrete solvers and `samplePose`. -/
theorem C3_failures_conflated_witness :
    (ik_request false (fun _ => IKResponse.serviceError "down") samplePose).1 = none ∧
      (ik_request false (fun _ => IKResponse.resp RESULT_INVALID [] []) samplePose).1 =
        none ∧
      (ik_request false (fun _ => IKResponse.resp SEED_CURRENT ["left_s0"] [1])
          samplePose).1 = some [("left_s0", (1 : ℚ))] :=
  ⟨((C3_failures_conflated false (fun _ => IKResponse.serviceError "down")
        samplePose).1 "down" rfl).1,
   ((C3_failures_conflated false (fun _ => IKResponse.resp RESULT_INVALID [] [])
        samplePose).2.1 [] [] rfl).1,
   (C3_failures_conflated false (fun _ => IKResponse.resp SEED_CURRENT ["left_s0"] [1])
        samplePose).2.2 SEED_CURRENT ["left_s0"] [1] (by decide) rfl⟩

lemma solveRequest_mem_ik (v : Bool) (s : Pose → IKResponse) (p : Pose) :
    Event.solveRequest p ∈ (ik_request v s p).2 := by
  rcases hs : s p with ⟨code, names, positions⟩ | e
  · by_cases hc : code = RESULT_INVALID <;> simp [ik_request, hs, hc]
  · simp [ik_request, hs]

lemma logErr_mem_ik_of_fails (v : Bool) (s : Pose → IKResponse) (p : Pose)
    (h : ikFails (s p) = true) :
    ∃ m, Event.logErr m ∈ (ik_request v s p).2 := by
  rcases hs : s p with ⟨code, names, positions⟩ | e
  · rw [hs] at h
    simp [ikFails] at h
    exact ⟨"INVALID POSE - No Valid Joint Solution Found.",
      by simp [ik_request, hs, h]⟩
  · exact ⟨"Service call failed: " ++ e, by simp [ik_request, hs]⟩

lemma externalCalls_ik_success (v : Bool) (s : Pose → IKResponse) (p : Pose)
    (j : JointConfig) (h : (ik_request v s p).1 = some j) :
    externalCalls (ik_request v s p).2 = [Event.solveRequest p] := by
  rcases hs : s p with ⟨code, names, positions⟩ | e
  · by_cases hc : code = RESULT_INVALID
    · exfalso
      simp [ik_request, hs, hc] at h
    · rcases v <;> simp [externalCalls, ik_request, hs, hc, isExternalCall]
  · exfalso
    simp [ik_request, hs] at h

lemma externalCalls_guarded_some (j : JointConfig) (hj : j.isEmpty = false) :
    externalCalls (guarded_move_to_joint_position (some j)) = [Event.moveTo j] := by
  simp [externalCalls, guarded_move_to_joint_position, hj, isExternalCall]

/-- The pose `_retract` assembles field by field is exactly the hover lift
of the current end-effector pose. -/
lemma retract_ik_pose_eq_hover (pnp : PnP) (p : Pose) :
    retract_ik_pose pnp p = hover p pnp.hover_distance := by
  obtain ⟨⟨x, y, z⟩, ⟨qx, qy, qz, qw⟩⟩ := p
  rfl

/-- C4: in each of the Approach (`_approach`), Descend (`_servo_to_pose`)
and Retract (`_retract`) phases, the trace holds exactly one solve request,
at most one motion command, exactly one motion command when the solve
succeeded with a non-empty joint dictionary, no motion command when the
solve failed, and never a motion command before the solve request. -/
theorem C4_solve_before_move (pnp : PnP) (env : Env) (pose : Pose) :
    phaseSpec (_approach pnp env pose)
        (env.solver (hover pose pnp.hover_distance)) ∧
      phaseSpec (_servo_to_pose pnp env pose) (env.solver pose) ∧
      phaseSpec (_retract pnp env)
        (env.solver (retract_ik_pose pnp env.endpointPose)) :=
  ⟨solve_guard_phaseSpec pnp.verbose env.solver (hover pose pnp.hover_distance),
   solve_guard_phaseSpec pnp.verbose env.solver pose,
   phaseSpec_cons_read _ _
     (solve_guard_phaseSpec pnp.verbose env.solver
       (retract_ik_pose pnp env.endpointPose))⟩

/-- Closed witness for `C4_solve_before_move` at the always-succeeding
solver and the concrete target pose. -/
theorem C4_solve_before_move_witness :
    phaseSpec (_approach pnpX envOk targetX)
        (envOk.solver (hover targetX pnpX.hover_distance)) ∧
      (_approach pnpX envOk targetX).countP isMove = 1 :=
  ⟨(C4_solve_before_move pnpX envOk targetX).1,
   (C4_solve_before_move pnpX envOk targetX).1.2.2.2.1 rfl rfl⟩

lemma pnpX_hd : pnpX.hover_distance = 1 := rfl

lemma targetX_ne_hover : targetX ≠ hover targetX (1 : ℚ) := by
  simp [targetX, hover, idQuat]

lemma solverFail_approach :
    envFailApproach.solver (hover targetX 1) = IKResponse.resp RESULT_INVALID [] [] := by
  simp [envFailApproach]

lemma solverFail_target :
    envFailApproach.solver targetX =
      IKResponse.resp SEED_CURRENT ["left_s0"] [1] := by
  simp [envFailApproach, targetX_ne_hover]

lemma ikFailsX :
    ikFails (envFailApproach.solver (hover targetX pnpX.hover_distance)) = true := by
  rw [pnpX_hd, solverFail_approach]
  rfl

lemma ikX_target :
    (ik_request pnpX.verbose envFailApproach.solver targetX).1 =
      some [("left_s0", (1 : ℚ))] := by
  simp [ik_request, solverFail_target, RESULT_INVALID, SEED_CURRENT]

/-- C1 counterexample: with the Approach solve failing (`RESULT_INVALID`
for the hover pose), `pick` nevertheless goes on: the Descend solve for the
exact target pose is requested, the gripper close command is issued, and a
motion command is still sent later in the pick — contradicting the claimed
abort, the claimed absence of `moveTo`, and the claim that the gripper
stays open. -/
theorem C1_counterexample :
    ikFails (envFailApproach.solver (hover targetX pnpX.hover_distance)) = true ∧
      Event.solveRequest targetX ∈ (pick pnpX envFailApproach targetX []).1 ∧
      Event.gripperCloseCmd ∈ (pick pnpX envFailApproach targetX []).1 ∧
      Event.moveTo [("left_s0", (1 : ℚ))] ∈ (pick pnpX envFailApproach targetX []).1 := by
  refine ⟨ikFailsX, ?_, ?_, ?_⟩
  · have hmem : Event.solveRequest targetX ∈ _servo_to_pose pnpX envFailApproach targetX :=
      List.mem_append_left _
        (solveRequest_mem_ik pnpX.verbose envFailApproach.solver targetX)
    simp only [pick, List.mem_append]
    tauto
  · have hmem : Event.gripperCloseCmd ∈ gripper_close := by
      simp [gripper_close]
    simp only [pick, List.mem_append]
    tauto
  · have hmem : Event.moveTo [("left_s0", (1 : ℚ))] ∈
        _servo_to_pose pnpX envFailApproach targetX := by
      unfold _servo_to_pose
      refine List.mem_append_right _ ?_
      rw [ikX_target]
      simp [guarded_move_to_joint_position]
    simp only [pick, List.mem_append]
    tauto

/-- C1 amended: when the Approach solve of a Pick fails, no motion command
is issued for the Approach phase (the guarded move refuses), but the pick
is not aborted and no Failed state exists: the Descend solve is still
requested, the gripper close command is still issued, and the routine still
ends `Idle`. -/
theorem C1_approach_failure_continues (pnp : PnP) (env : Env) (pose : Pose)
    (path : List Pose)
    (hfail : ikFails (env.solver (hover pose pnp.hover_distance)) = true) :
    (_approach pnp env pose).countP isMove = 0 ∧
      Event.solveRequest pose ∈ (pick pnp env pose path).1 ∧
      Event.gripperCloseCmd ∈ (pick pnp env pose path).1 ∧
      (pick pnp env pose path).2 = SequencerState.Idle := by
  refine ⟨(solve_guard_phaseSpec pnp.verbose env.solver
      (hover pose pnp.hover_distance)).2.2.1 hfail, ?_, ?_, rfl⟩
  · have hmem : Event.solveRequest pose ∈ _servo_to_pose pnp env pose :=
      List.mem_append_left _ (solveRequest_mem_ik pnp.verbose env.solver pose)
    simp only [pick, List.mem_append]
    tauto
  · have hmem : Event.gripperCloseCmd ∈ gripper_close := by
      simp [gripper_close]
    simp only [pick, List.mem_append]
    tauto

/-- Closed witness for `C1_approach_failure_continues` in the environment
that fails the Approach solve for `targetX`. -/
theorem C1_approach_failure_continues_witness :
    (_approach pnpX envFailApproach targetX).countP isMove = 0 ∧
      Event.solveRequest targetX ∈ (pick pnpX envFailApproach targetX []).1 ∧
      Event.gripperCloseCmd ∈ (pick pnpX envFailApproach targetX []).1 ∧
      (pick pnpX envFailApproach targetX []).2 = SequencerState.Idle :=
  C1_approach_failure_continues pnpX envFailApproach targetX [] ikFailsX

/-- C2 counterexample: with the Approach solve failing during `place`, the
gripper open command is still issued (the object is released anyway) and
the Descend solve is still requested — contradicting the claimed abort and
the claim that `openGripper` is not called. -/
theorem C2_counterexample :
    ikFails (envFailApproach.solver (hover targetX pnpX.hover_distance)) = true ∧
      Event.gripperOpenCmd ∈ (place pnpX envFailApproach targetX).1 ∧
      Event.solveRequest targetX ∈ (place pnpX envFailApproach targetX).1 := by
  refine ⟨ikFailsX, ?_, ?_⟩
  · have hmem : Event.gripperOpenCmd ∈ gripper_open := by
      simp [gripper_open]
    simp only [place, List.mem_append]
    tauto
  · have hmem : Event.solveRequest targetX ∈ _servo_to_pose pnpX envFailApproach targetX :=
      List.mem_append_left _
        (solveRequest_mem_ik pnpX.verbose envFailApproach.solver targetX)
    simp only [place, List.mem_append]
    tauto

/-- C2 amended: when the Approach or the Descend solve of a Place fails,
no motion command is issued for that phase, but the place is not aborted
and no Failed state exists: the gripper open command is still issued (the
object is released) and the routine still ends `Idle`. -/
theorem C2_place_failure_continues (pnp : PnP) (env : Env) (pose : Pose) :
    (ikFails (env.solver (hover pose pnp.hover_distance)) = true →
        (_approach pnp env pose).countP isMove = 0) ∧
      (ikFails (env.solver pose) = true →
        (_servo_to_pose pnp env pose).countP isMove = 0) ∧
      Event.gripperOpenCmd ∈ (place pnp env pose).1 ∧
      (place pnp env pose).2 = SequencerState.Idle := by
  refine ⟨(solve_guard_phaseSpec pnp.verbose env.solver
      (hover pose pnp.hover_distance)).2.2.1,
    (solve_guard_phaseSpec pnp.verbose env.solver pose).2.2.1, ?_, rfl⟩
  have hmem : Event.gripperOpenCmd ∈ gripper_open := by
    simp [gripper_open]
  simp only [place, List.mem_append]
  tauto

/-- Closed witness for `C2_place_failure_continues` in the environment that
fails the Approach solve for `targetX`. -/
theorem C2_place_failure_continues_witness :
    (_approach pnpX envFailApproach targetX).countP isMove = 0 ∧
      Event.gripperOpenCmd ∈ (place pnpX envFailApproach targetX).1 :=
  ⟨(C2_place_failure_continues pnpX envFailApproach targetX).1 ikFailsX,
   (C2_place_failure_continues pnpX envFailApproach targetX).2.2.1⟩

/-- C5: the waypoint traversal of `pick` is best-effort: the trace visits
every waypoint of the path in order regardless of solver outcomes; a
waypoint whose solve fails gets no motion command but a log line, and the
pick still ends `Idle`, never `Failed`. -/
theorem C5_waypoints_best_effort (pnp : PnP) (env : Env) (pose : Pose)
    (path : List Pose) :
    (pick pnp env pose path).1 =
        gripper_open ++ _approach pnp env pose ++ _servo_to_pose pnp env pose ++
          gripper_close ++ _retract pnp env ++
          (path.map (fun p => Event.printMsg "Came here" :: goTo pnp env p)).flatten ∧
      (∀ p ∈ path,
        Event.solveRequest (hover p pnp.hover_distance) ∈ (pick pnp env pose path).1) ∧
      (∀ p ∈ path, ikFails (env.solver (hover p pnp.hover_distance)) = true →
        (goTo pnp env p).countP isMove = 0 ∧
          ∃ m, Event.logErr m ∈ goTo pnp env p) ∧
      (pick pnp env pose path).2 = SequencerState.Idle := by
  refine ⟨rfl, ?_, ?_, rfl⟩
  · intro p hp
    have hmem : Event.solveRequest (hover p pnp.hover_distance) ∈ goTo pnp env p :=
      List.mem_append_left _
        (solveRequest_mem_ik pnp.verbose env.solver (hover p pnp.hover_distance))
    have hflat : Event.solveRequest (hover p pnp.hover_distance) ∈
        (path.map (fun q => Event.printMsg "Came here" :: goTo pnp env q)).flatten := by
      rw [List.mem_flatten]
      exact ⟨Event.printMsg "Came here" :: goTo pnp env p,
        List.mem_map_of_mem _ hp, List.mem_cons_of_mem _ hmem⟩
    simp only [pick, List.mem_append]
    tauto
  · intro p hp hfail
    refine ⟨(solve_guard_phaseSpec pnp.verbose env.solver
        (hover p pnp.hover_distance)).2.2.1 hfail, ?_⟩
    obtain ⟨m, hm⟩ :=
      logErr_mem_ik_of_fails pnp.verbose env.solver (hover p pnp.hover_distance) hfail
    exact ⟨m, List.mem_append_left _ hm⟩

/-- Closed witness for `C5_waypoints_best_effort`: with `targetX` as the
single waypoint and its hover solve failing, the waypoint solve request is
still in the trace, the waypoint gets no motion command, and the pick ends
`Idle`. -/
theorem C5_waypoints_best_effort_witness :
    Event.solveRequest (hover targetX pnpX.hover_distance) ∈
        (pick pnpX envFailApproach targetX [targetX]).1 ∧
      (goTo pnpX envFailApproach targetX).countP isMove = 0 ∧
      (pick pnpX envFailApproach targetX [targetX]).2 = SequencerState.Idle :=
  ⟨(C5_waypoints_best_effort pnpX envFailApproach targetX [targetX]).2.1 targetX
      (by simp),
   ((C5_waypoints_best_effort pnpX envFailApproach targetX [targetX]).2.2.1 targetX
      (by simp) ikFailsX).1,
   (C5_waypoints_best_effort pnpX envFailApproach targetX [targetX]).2.2.2⟩

/-- C7: with an empty waypoint path and every solve succeeding with a
non-empty joint dictionary, the external calls of `pick` are exactly: open
gripper, solve for the hover pose, move, solve for the exact pose, move,
close gripper, read the current end-effector pose, solve for its hover
lift, move; and the pick ends `Idle`. -/
theorem C7_pick_happy_trace (pnp : PnP) (env : Env) (pose : Pose)
    (j1 j2 j3 : JointConfig)
    (h1 : (ik_request pnp.verbose env.solver (hover pose pnp.hover_distance)).1 = some j1)
    (h1n : j1.isEmpty = false)
    (h2 : (ik_request pnp.verbose env.solver pose).1 = some j2)
    (h2n : j2.isEmpty = false)
    (h3 : (ik_request pnp.verbose env.solver
        (retract_ik_pose pnp env.endpointPose)).1 = some j3)
    (h3n : j3.isEmpty = false) :
    externalCalls (pick pnp env pose []).1 =
        [Event.gripperOpenCmd,
         Event.solveRequest (hover pose pnp.hover_distance), Event.moveTo j1,
         Event.solveRequest pose, Event.moveTo j2,
         Event.gripperCloseCmd,
         Event.readEndpointPose,
         Event.solveRequest (hover env.endpointPose pnp.hover_distance),
         Event.moveTo j3] ∧
      (pick pnp env pose []).2 = SequencerState.Idle := by
  refine ⟨?_, rfl⟩
  have e1 := externalCalls_ik_success pnp.verbose env.solver
    (hover pose pnp.hover_distance) j1 h1
  have e2 := externalCalls_ik_success pnp.verbose env.solver pose j2 h2
  have e3 := externalCalls_ik_success pnp.verbose env.solver
    (retract_ik_pose pnp env.endpointPose) j3 h3
  have g1 := externalCalls_guarded_some j1 h1n
  have g2 := externalCalls_guarded_some j2 h2n
  have g3 := externalCalls_guarded_some j3 h3n
  simp only [externalCalls] at e1 e2 e3 g1 g2 g3
  rw [retract_ik_pose_eq_hover] at e3 h3
  simp [pick, _approach, _servo_to_pose, _retract, gripper_open, gripper_close,
    externalCalls, List.filter_append, h1, h2, h3, e1, e2, e3, g1, g2, g3,
    isExternalCall, retract_ik_pose_eq_hover]

/-- Closed witness for `C7_pick_happy_trace` under the always-succeeding
solver. -/
theorem C7_pick_happy_trace_witness :
    externalCalls (pick pnpX envOk targetX []).1 =
        [Event.gripperOpenCmd,
         Event.solveRequest (hover targetX pnpX.hover_distance),
         Event.moveTo [("left_s0", (1 : ℚ))],
         Event.solveRequest targetX, Event.moveTo [("left_s0", (1 : ℚ))],
         Event.gripperCloseCmd,
         Event.readEndpointPose,
         Event.solveRequest (hover envOk.endpointPose pnpX.hover_distance),
         Event.moveTo [("left_s0", (1 : ℚ))]] ∧
      (pick pnpX envOk targetX []).2 = SequencerState.Idle :=
  C7_pick_happy_trace pnpX envOk targetX
    [("left_s0", (1 : ℚ))] [("left_s0", (1 : ℚ))] [("left_s0", (1 : ℚ))]
    rfl rfl rfl rfl rfl rfl

lemma advance_poses (t : Task) (k : Nat) : (advance^[k] t).poses = t.poses := by
  induction k with
  | zero => rfl
  | succ k ih =>
      rw [Function.iterate_succ_apply']
      simp [advance, nextHome, ih]

lemma advance_idx (t : Task) (hidx : t.idx < t.poses.length) (k : Nat) :
    (advance^[k] t).idx = (t.idx + k) % t.poses.length := by
  induction k with
  | zero => simpa using (Nat.mod_eq_of_lt hidx).symm
  | succ k ih =>
      rw [Function.iterate_succ_apply']
      simp only [advance, nextHome, ih, advance_poses]
      rw [Nat.mod_add_mod, Nat.add_assoc]

lemma homeAt_eq (t : Task) (hidx : t.idx < t.poses.length) (k : Nat) :
    homeAt t k = t.poses.getD ((t.idx + k) % t.poses.length) defaultPose := by
  simp [homeAt, nextHome, advance_poses, advance_idx t hidx k]

/-- C9: `nextHome` returns the pose at the current index and advances the
index by one modulo the sequence length; the index therefore stays in
`[0, n)` forever, the first `n` calls return the stored poses exactly once
each (as a permutation of the sequence), and the `(n+1)`-th call returns
the same pose as the 1st. -/
theorem C9_nextHome_cyclic (t : Task) (hn : 0 < t.poses.length)
    (hidx : t.idx < t.poses.length) :
    (nextHome t).1 = t.poses.getD t.idx defaultPose ∧
      (nextHome t).2.idx = (t.idx + 1) % t.poses.length ∧
      (∀ k, (advance^[k] t).idx < t.poses.length) ∧
      ((List.range t.poses.length).map (homeAt t)).Perm t.poses ∧
      homeAt t t.poses.length = homeAt t 0 := by
  refine ⟨rfl, rfl, ?_, ?_, ?_⟩
  · intro k
    rw [advance_idx t hidx k]
    exact Nat.mod_lt _ hn
  · have hmap : (List.range t.poses.length).map (homeAt t) =
        t.poses.rotate t.idx := by
      apply List.ext_getElem
      · simp [List.length_rotate]
      · intro i h1 h2
        simp only [List.getElem_map, List.getElem_range]
        rw [homeAt_eq t hidx i, List.getElem_rotate]
        rw [List.getD_eq_getElem _ _ (Nat.mod_lt _ hn)]
        congr 1
        rw [Nat.add_comm]
    rw [hmap]
    exact List.rotate_perm t.poses t.idx
  · rw [homeAt_eq t hidx, homeAt_eq t hidx, Nat.add_mod_right, Nat.add_zero,
      Nat.mod_eq_of_lt hidx]

/-- Closed witness for `C9_nextHome_cyclic` on a two-pose task: the third
call returns the same pose as the first. -/
theorem C9_nextHome_cyclic_witness : homeAt taskX 2 = homeAt taskX 0 :=
  (C9_nextHome_cyclic taskX (by decide) (by decide)).2.2.2.2

/-- C10: calling `move_to_start` with `start_angles` absent (`None`) or
empty takes the zero-angle fallback, whose read of `self._joint_names`
raises `AttributeError` because `__init__` never assigns that attribute;
the routine aborts with the exception and no motion command is ever issued,
so the arm is not moved to an all-zero configuration. -/
theorem C10_move_to_start_raises (pnp : PnP) (start_angles : Option JointConfig)
    (h : pyTruthy start_angles = false) :
    (move_to_start pnp start_angles).2 = some (PyError.attributeError "_joint_names") ∧
      (move_to_start pnp start_angles).1.countP isMove = 0 := by
  simp [move_to_start, h, joint_names_attr, isMove, List.countP_cons]

/-- Closed witness for `C10_move_to_start_raises` at `start_angles = none`. -/
theorem C10_move_to_start_raises_witness :
    (move_to_start pnpX none).2 = some (PyError.attributeError "_joint_names") ∧
      (move_to_start pnpX none).1.countP isMove = 0 :=
  C10_move_to_start_raises pnpX none rfl

end PickAndPlaceModel
